import Mathlib

/-!
Verification development for the paper-and-version lifecycle of the
CD_AI_back_end repository.  The definitions below are a shallow embedding of
`app/api/v1/endpoints/papers.py` (helpers from `app/services/oss.py`):
machine state is a record of the two relational tables, the blob store and a
monotone clock; each HTTP handler becomes a function from its request data and
a state to an `Except`-valued response paired with the successor state.
Timestamps (`datetime.now()`) are drawn from the clock, which advances once
per handler invocation that reaches the storage layer, and string-formatted
timestamps are kept as the underlying natural number (the formatting is a
monotone injection and no claim depends on its text).  A boolean `dbFail`
field injects relational-store failure (`pymysql.MySQLError`) at the point
where a handler commits its writes, matching the handlers' `except
pymysql.MySQLError` blocks which roll the transaction back and answer 500.
-/

/-- Caller identity dictionary as produced by parsing the `current_user` JSON
query parameter.  JSON object field values are embedded at the types the
handlers consume (`sub` an integer, `username` a string, `roles` a list of
strings); a key missing from the object is `none`, mirroring `dict.get`. -/
structure UserDict where
  sub : Option Int
  username : Option String
  roles : Option (List String)
deriving Repr, DecidableEq

/-- Classification of the optional `current_user` query string by how
`urllib.parse.unquote` followed by `json.loads` inside `_parse_current_user`
resolves it: parameter absent or the empty string (falsy), a string that is
blank after unquoting and stripping, a string `json.loads` raises on, valid
JSON that is not an object, or a JSON object. -/
inductive CurrentUserInput where
  | absent
  | blank
  | notJson
  | nonObject
  | obj (d : UserDict)
deriving Repr, DecidableEq

/-- The fallback identity `_parse_current_user` returns on every non-object
input: the dict with sub 0, empty username and empty roles. -/
def default_user : UserDict :=
  { sub := some 0, username := some "", roles := some [] }

/-- `_parse_current_user` from `papers.py`: every branch other than
`isinstance(data, dict)` (absent, blank, JSON error, non-object JSON) falls
through to the default identity; a parsed object is returned as is. -/
def parse_current_user : CurrentUserInput → UserDict
  | .obj d => d
  | _ => default_user

/-- A row of the `papers` table. -/
structure PaperRow where
  id : Nat
  owner_id : Int
  latest_version : String
  oss_key : String
  created_at : Nat
  updated_at : Nat
deriving Repr, DecidableEq

/-- A row of the `paper_versions` table.  Columns a given INSERT statement
does not mention stay NULL, hence the `Option` fields. -/
structure VersionRow where
  id : Nat
  paper_id : Nat
  version : String
  size : Nat
  created_at : Nat
  updated_at : Option Nat
  status : String
  submitted_by_id : Option Int
  submitted_by_name : Option String
  submitted_by_role : Option String
deriving Repr, DecidableEq

/-- Modelled from the spec: the response schema `PaperOut` lives in
`app.schemas.document`, a module absent from the sources; its fields are the
ones the handlers construct (`id`, `owner_id`, `latest_version`, `oss_key`),
matching the Paper fields of spec section 3. -/
structure PaperOut where
  id : Nat
  owner_id : Int
  latest_version : String
  oss_key : String
deriving Repr, DecidableEq

/-- Modelled from the spec: response schema `PaperStatusOut` from the absent
`app.schemas.document`, with the fields the status handlers construct. -/
structure PaperStatusOut where
  paper_id : Nat
  version : String
  status : String
  size : Nat
  updated_at : Nat
deriving Repr, DecidableEq

/-- Modelled from the spec: response schema `VersionOut` from the absent
`app.schemas.document`, with the fields `list_versions` constructs. -/
structure VersionOut where
  version : String
  size : Nat
  created_at : Nat
  status : String
deriving Repr, DecidableEq

/-- Modelled from the spec: request schema `PaperStatusCreate` from the absent
`app.schemas.document`; per spec section 4.3 `status` is required and `size`
optional (defaulting happens in the handler). -/
structure PaperStatusCreate where
  status : String
  size : Option Nat
deriving Repr, DecidableEq

/-- Modelled from the spec: request schema `PaperStatusUpdate` from the absent
`app.schemas.document`; `status` is required on update, `size` optional. -/
structure PaperStatusUpdate where
  status : String
  size : Option Nat
deriving Repr, DecidableEq

/-- An `HTTPException` as the handlers raise it.  The source interpolates the
driver message into some 500 details; the model keeps the constant part. -/
structure ApiError where
  status_code : Nat
  detail : String
deriving Repr, DecidableEq

deriving instance DecidableEq for Except

/-- The world state: the two tables, the blob store (key with stored bytes),
auto-increment counters, the clock, and the relational-failure switch. -/
structure St where
  papers : List PaperRow
  paper_versions : List VersionRow
  blobs : List (String × List Nat)
  next_paper_id : Nat
  next_version_id : Nat
  clock : Nat
  dbFail : Bool
deriving Repr, DecidableEq

/-- Python `str.lower()` modelled over the character list (the stock string
functions are opaque to definitional evaluation, so the embedding works on
`String.data` directly). -/
def py_lower (s : String) : String :=
  ⟨s.data.map Char.toLower⟩

/-- Python `str.endswith(suffix)` over the character lists. -/
def py_endswith (s suffix : String) : Bool :=
  suffix.data.isSuffixOf s.data

/-- `Path(filename).name` as used by the storage helpers: the basename, the
characters after the last slash. -/
def safe_name (filename : String) : String :=
  ⟨(filename.data.reverse.takeWhile (fun c => !(c == '/'))).reverse⟩

/-- `upload_paper_to_storage` from `app/services/oss.py`: the stored key is a
timestamp prefix joined by an underscore to the basename; the timestamp comes
from the model clock. -/
def storage_key (ts : Nat) (filename : String) : String :=
  toString ts ++ "_" ++ safe_name filename

/-- Duplicate test used to model the relational store.  Modelled from the
spec: spec section 5 states correctness "relies entirely on the relational
store's uniqueness constraint on (paper_id, version)", a schema not present in
the sources; an INSERT that violates it raises `pymysql.MySQLError`, which the
handlers catch. -/
def has_version (rows : List VersionRow) (pid : Nat) (version : String) : Bool :=
  rows.any (fun r => r.paper_id == pid && r.version == version)

/-- The `POST /papers/upload` handler `upload_paper`.  Checks the `.docx`
extension and the 100 MiB ceiling (there is no empty-content check in this
handler), writes the blob, then inserts the `papers` row and the initial
`paper_versions` row with version tag "v1.0" and status "ok"; a MySQL error
rolls both inserts back (the blob stays) and answers 500. -/
def upload_paper (current_user : CurrentUserInput) (filename : String)
    (contents : List Nat) (s : St) : Except ApiError PaperOut × St :=
  let user := parse_current_user current_user
  if ¬ (py_endswith (py_lower filename) ".docx") then
    (Except.error ⟨400, "仅支持 .docx 格式"⟩, s)
  else
    let size := contents.length
    if 100 * 1024 * 1024 < size then
      (Except.error ⟨400, "文件大小超过 100MB"⟩, s)
    else
      let oss_key := storage_key s.clock filename
      let s1 : St := { s with blobs := s.blobs ++ [(oss_key, contents)] }
      let user_id : Int := user.sub.getD 0
      let submitter_name := user.username.getD ""
      let submitter_role := String.intercalate "," (user.roles.getD [])
      let now := s.clock
      let paper_id := s.next_paper_id
      if s.dbFail then
        (Except.error ⟨500, "数据库操作失败"⟩, { s1 with clock := s.clock + 1 })
      else if has_version s.paper_versions paper_id "v1.0" then
        (Except.error ⟨500, "数据库操作失败"⟩, { s1 with clock := s.clock + 1 })
      else
        let prow : PaperRow := ⟨paper_id, user_id, "v1.0", oss_key, now, now⟩
        let vrow : VersionRow :=
          ⟨s.next_version_id, paper_id, "v1.0", size, now, none, "ok",
            some user_id, some submitter_name, some submitter_role⟩
        (Except.ok ⟨paper_id, user_id, "v1.0", oss_key⟩,
          { s1 with
              papers := s.papers ++ [prow],
              paper_versions := s.paper_versions ++ [vrow],
              next_paper_id := paper_id + 1,
              next_version_id := s.next_version_id + 1,
              clock := s.clock + 1 })

/-- The `PUT /papers/{paper_id}` handler `update_paper`.  Validates extension,
empty content and the 100 MiB ceiling, looks the paper up (404), compares its
owner with `current_user.get("sub")` (403 on mismatch, also when the key is
missing), writes the new blob, then updates the `papers` pointer columns and
inserts the new `paper_versions` row in one transaction; a MySQL error — in
particular a duplicate (paper_id, version) — rolls the transaction back,
leaves the new blob behind and answers 500. -/
def update_paper (paper_id : Nat) (current_user : CurrentUserInput)
    (filename : String) (contents : List Nat) (version : String) (s : St) :
    Except ApiError PaperOut × St :=
  let user := parse_current_user current_user
  if ¬ (py_endswith (py_lower filename) ".docx") then
    (Except.error ⟨400, "仅支持 .docx 格式"⟩, s)
  else
    let size := contents.length
    if size == 0 then
      (Except.error ⟨400, "文件为空"⟩, s)
    else if 100 * 1024 * 1024 < size then
      (Except.error ⟨400, "文件大小超过 100MB"⟩, s)
    else
      match s.papers.find? (fun p => p.id == paper_id) with
      | none => (Except.error ⟨404, "论文不存在"⟩, s)
      | some p =>
        if some p.owner_id ≠ user.sub then
          (Except.error ⟨403, "无权限更新该论文"⟩, s)
        else
          let oss_key := storage_key s.clock filename
          let s1 : St := { s with blobs := s.blobs ++ [(oss_key, contents)] }
          if s.dbFail then
            (Except.error ⟨500, "数据库操作失败"⟩, { s1 with clock := s.clock + 1 })
          else if has_version s.paper_versions paper_id version then
            (Except.error ⟨500, "数据库操作失败"⟩, { s1 with clock := s.clock + 1 })
          else
            let now := s.clock
            let papers2 := s.papers.map (fun q =>
              if q.id == paper_id then
                { q with latest_version := version, oss_key := oss_key,
                         updated_at := now }
              else q)
            let vrow : VersionRow :=
              ⟨s.next_version_id, paper_id, version, size, now, some now, "ok",
                some (user.sub.getD 0), some (user.username.getD ""),
                some (String.intercalate "," (user.roles.getD []))⟩
            (Except.ok ⟨paper_id, user.sub.getD 0, version, oss_key⟩,
              { s1 with
                  papers := papers2,
                  paper_versions := s.paper_versions ++ [vrow],
                  next_version_id := s.next_version_id + 1,
                  clock := s.clock + 1 })

/-- The `DELETE /papers/{paper_id}` handler `delete_paper`.  The handler
declares no identity parameter; `caller` stands for the requester the HTTP
layer would hand over, and the body never reads it: the source binds a fixed
`current_user` dict with sub 1 and compares the paper's owner against that.
The DELETE statement touches only the `papers` table.  Success returns the
deleted paper id (the source returns a message dict carrying it). -/
def delete_paper (caller : UserDict) (paper_id : Nat) (s : St) :
    Except ApiError Nat × St :=
  let current_user : UserDict := { sub := some 1, username := none, roles := none }
  match s.papers.find? (fun p => p.id == paper_id) with
  | none => (Except.error ⟨404, "论文不存在"⟩, s)
  | some p =>
    if some p.owner_id ≠ current_user.sub then
      (Except.error ⟨403, "无权限删除该论文"⟩, s)
    else if s.dbFail then
      (Except.error ⟨500, "数据库操作失败"⟩, s)
    else
      (Except.ok paper_id,
        { s with
            papers := s.papers.filter (fun q => ¬ (q.id == paper_id)),
            clock := s.clock + 1 })

/-- The `POST /papers/{paper_id}/versions/{version}/status` handler
`create_paper_status`: 404 when the paper is absent, 409 when a row for
(paper_id, version) already exists, otherwise inserts a `paper_versions` row
whose size defaults to 0 when the payload omits it. -/
def create_paper_status (paper_id : Nat) (version : String)
    (payload : PaperStatusCreate) (s : St) : Except ApiError PaperStatusOut × St :=
  if ¬ (s.papers.any (fun p => p.id == paper_id)) then
    (Except.error ⟨404, "论文不存在"⟩, s)
  else if has_version s.paper_versions paper_id version then
    (Except.error ⟨409, "该版本状态已存在，可使用更新接口"⟩, s)
  else
    let size := payload.size.getD 0
    let now := s.clock
    if s.dbFail then
      (Except.error ⟨500, "数据库操作失败"⟩, s)
    else
      let row : VersionRow :=
        ⟨s.next_version_id, paper_id, version, size, now, none, payload.status,
          none, none, none⟩
      (Except.ok ⟨paper_id, version, payload.status, size, now⟩,
        { s with
            paper_versions := s.paper_versions ++ [row],
            next_version_id := s.next_version_id + 1,
            clock := s.clock + 1 })

/-- The `PUT /papers/{paper_id}/versions/{version}/status` handler
`update_paper_status`: 404 when no (paper_id, version) row exists, otherwise
sets status, size and updated_at on the matching row, size keeping the prior
stored value when the payload omits it. -/
def update_paper_status (paper_id : Nat) (version : String)
    (payload : PaperStatusUpdate) (s : St) : Except ApiError PaperStatusOut × St :=
  match s.paper_versions.find? (fun r => r.paper_id == paper_id && r.version == version) with
  | none => (Except.error ⟨404, "该版本不存在"⟩, s)
  | some row =>
    let new_size := payload.size.getD row.size
    let now := s.clock
    if s.dbFail then
      (Except.error ⟨500, "数据库操作失败"⟩, s)
    else
      let rows := s.paper_versions.map (fun r =>
        if r.paper_id == paper_id && r.version == version then
          { r with status := payload.status, size := new_size, updated_at := some now }
        else r)
      (Except.ok ⟨paper_id, version, payload.status, new_size, now⟩,
        { s with paper_versions := rows, clock := s.clock + 1 })

/-- The comparison realised by `ORDER BY created_at DESC`: a row sorts before
another when its timestamp is greater or equal.  MySQL leaves the order of
ties unspecified; the insertion sort below fixes one choice, and no theorem
depends on how ties break. -/
def created_desc (a b : VersionRow) : Prop :=
  b.created_at ≤ a.created_at

instance : DecidableRel created_desc := fun _ q => Nat.decLe q.created_at _

instance : IsTotal VersionRow created_desc :=
  ⟨fun a b => Nat.le_total b.created_at a.created_at⟩

instance : IsTrans VersionRow created_desc :=
  ⟨fun _ _ _ h1 h2 => Nat.le_trans h2 h1⟩

/-- `ORDER BY created_at DESC` modelled as a sort of the filtered rows. -/
def sort_desc (l : List VersionRow) : List VersionRow :=
  l.insertionSort created_desc

/-- The `GET /papers/{paper_id}/versions` handler `list_versions`.  As in
`delete_paper`, the handler never reads the requester `caller`: it binds a
fixed `current_user` with sub 1, checks ownership against it, then returns the
paper's version rows ordered by `created_at` descending. -/
def list_versions (caller : UserDict) (paper_id : Nat) (s : St) :
    Except ApiError (List VersionOut) × St :=
  let current_user : UserDict := { sub := some 1, username := none, roles := none }
  match s.papers.find? (fun p => p.id == paper_id) with
  | none => (Except.error ⟨404, "论文不存在"⟩, s)
  | some p =>
    if some p.owner_id ≠ current_user.sub then
      (Except.error ⟨403, "无权限查看该论文版本"⟩, s)
    else
      let rows := sort_desc (s.paper_versions.filter (fun r => r.paper_id == paper_id))
      (Except.ok (rows.map (fun r => ⟨r.version, r.size, r.created_at, r.status⟩)), s)

/-! ### Helper lemmas about the embedded relational primitives -/

/-- The SQL UPDATE touching the rows keyed by id commutes with the lookup of
that key, as long as the update preserves the key column. -/
theorem find?_map_ite_paper (l : List PaperRow) (pid : Nat)
    (f : PaperRow → PaperRow) (hf : ∀ q, (f q).id = q.id) :
    (l.map (fun q => if q.id == pid then f q else q)).find? (fun q => q.id == pid)
      = (l.find? (fun q => q.id == pid)).map f := by
  induction l with
  | nil => rfl
  | cons a l ih =>
    by_cases h : (a.id == pid) = true
    · have hfa : ((f a).id == pid) = true := by rw [hf a]; exact h
      simp only [List.map_cons, h, ite_true, List.find?_cons, hfa, Option.map_some']
    · have hb : (a.id == pid) = false := by revert h; cases (a.id == pid) <;> simp
      simp only [List.map_cons, hb, Bool.false_eq_true, ite_false, List.find?_cons]
      exact ih

/-- The SQL UPDATE keyed by (paper_id, version) commutes with the lookup of
that key, as long as the update preserves both key columns. -/
theorem find?_map_ite_version (l : List VersionRow) (pid : Nat) (ver : String)
    (f : VersionRow → VersionRow)
    (hf : ∀ r, (f r).paper_id = r.paper_id ∧ (f r).version = r.version) :
    (l.map (fun r => if r.paper_id == pid && r.version == ver then f r else r)).find?
        (fun r => r.paper_id == pid && r.version == ver)
      = (l.find? (fun r => r.paper_id == pid && r.version == ver)).map f := by
  induction l with
  | nil => rfl
  | cons a l ih =>
    by_cases h : (a.paper_id == pid && a.version == ver) = true
    · have hfa : ((f a).paper_id == pid && (f a).version == ver) = true := by
        rw [(hf a).1, (hf a).2]; exact h
      simp only [List.map_cons, h, ite_true, List.find?_cons, hfa, Option.map_some']
    · have hb : (a.paper_id == pid && a.version == ver) = false := by
        revert h; cases (a.paper_id == pid && a.version == ver) <;> simp
      simp only [List.map_cons, hb, Bool.false_eq_true, ite_false, List.find?_cons]
      exact ih

/-- The status-update UPDATE statement applied over a list in which the key
(paper_id, version) is found: afterwards the lookup returns the found row
with status, size and updated_at overwritten. -/
theorem find?_after_status_update (l : List VersionRow) (pid : Nat) (ver : String)
    (stat : String) (sz t : Nat) (row : VersionRow)
    (hfind : l.find? (fun r => r.paper_id == pid && r.version == ver) = some row) :
    (l.map (fun r => if r.paper_id == pid && r.version == ver then
        { r with status := stat, size := sz, updated_at := some t } else r)).find?
      (fun r => r.paper_id == pid && r.version == ver) =
      some { row with status := stat, size := sz, updated_at := some t } := by
  rw [find?_map_ite_version l pid ver
    (fun r => { r with status := stat, size := sz, updated_at := some t })
    (fun r => ⟨rfl, rfl⟩), hfind]
  rfl

/-- Sorting by descending timestamp a list whose last element carries a
strictly larger timestamp than all others brings that element to the front. -/
theorem sort_desc_append_max (l : List VersionRow) (x : VersionRow)
    (h : ∀ q ∈ l, q.created_at < x.created_at) :
    sort_desc (l ++ [x]) = x :: sort_desc l := by
  induction l with
  | nil => rfl
  | cons a l ih =>
    have ha : ¬ created_desc a x :=
      Nat.not_le.mpr (h a (List.mem_cons_self a l))
    have ih2 := ih (fun q hq => h q (List.mem_cons_of_mem _ hq))
    simp only [sort_desc] at ih2 ⊢
    rw [List.cons_append, List.insertionSort, ih2, List.insertionSort,
      List.orderedInsert, if_neg ha]

/-- The sort does not change the number of rows. -/
theorem sort_desc_length (l : List VersionRow) :
    (sort_desc l).length = l.length :=
  (List.perm_insertionSort created_desc l).length_eq

/-- The sort output is sorted by descending `created_at`. -/
theorem sort_desc_sorted (l : List VersionRow) :
    List.Sorted created_desc (sort_desc l) :=
  List.sorted_insertionSort created_desc l

/-! ### Characterisations of the handlers on their main paths -/

/-- A successful `upload_paper`: response and successor state spelt out. -/
theorem upload_paper_ok (cu : CurrentUserInput) (filename : String)
    (contents : List Nat) (s : St)
    (hext : py_endswith (py_lower filename) ".docx" = true)
    (hsize : contents.length ≤ 100 * 1024 * 1024)
    (hdb : s.dbFail = false)
    (hdup : has_version s.paper_versions s.next_paper_id "v1.0" = false) :
    upload_paper cu filename contents s =
      (Except.ok ⟨s.next_paper_id, (parse_current_user cu).sub.getD 0, "v1.0",
          storage_key s.clock filename⟩,
        { papers := s.papers ++ [⟨s.next_paper_id, (parse_current_user cu).sub.getD 0,
              "v1.0", storage_key s.clock filename, s.clock, s.clock⟩],
          paper_versions := s.paper_versions ++
            [⟨s.next_version_id, s.next_paper_id, "v1.0", contents.length, s.clock,
              none, "ok", some ((parse_current_user cu).sub.getD 0),
              some ((parse_current_user cu).username.getD ""),
              some (String.intercalate "," ((parse_current_user cu).roles.getD []))⟩],
          blobs := s.blobs ++ [(storage_key s.clock filename, contents)],
          next_paper_id := s.next_paper_id + 1,
          next_version_id := s.next_version_id + 1,
          clock := s.clock + 1,
          dbFail := false }) := by
  simp [upload_paper, hext, hdb, hdup, Nat.not_lt.mpr hsize]

/-- `upload_paper` under an injected database failure: the transaction is
rolled back and the handler answers 500, but the blob just written stays. -/
theorem upload_paper_dbfail (cu : CurrentUserInput) (filename : String)
    (contents : List Nat) (s : St)
    (hext : py_endswith (py_lower filename) ".docx" = true)
    (hsize : contents.length ≤ 100 * 1024 * 1024)
    (hdb : s.dbFail = true) :
    upload_paper cu filename contents s =
      (Except.error ⟨500, "数据库操作失败"⟩,
        { s with blobs := s.blobs ++ [(storage_key s.clock filename, contents)],
                 clock := s.clock + 1 }) := by
  simp [upload_paper, hext, hdb, Nat.not_lt.mpr hsize]

/-- A successful `update_paper` with a fresh version tag: the `papers` pointer
columns move to the new artifact and a new `paper_versions` row appears. -/
theorem update_paper_ok (pid : Nat) (cu : CurrentUserInput) (filename : String)
    (contents : List Nat) (version : String) (s : St) (p : PaperRow)
    (hext : py_endswith (py_lower filename) ".docx" = true)
    (hpos : contents.length ≠ 0)
    (hsize : contents.length ≤ 100 * 1024 * 1024)
    (hfind : s.papers.find? (fun q => q.id == pid) = some p)
    (hown : some p.owner_id = (parse_current_user cu).sub)
    (hdb : s.dbFail = false)
    (hdup : has_version s.paper_versions pid version = false) :
    update_paper pid cu filename contents version s =
      (Except.ok ⟨pid, (parse_current_user cu).sub.getD 0, version,
          storage_key s.clock filename⟩,
        { papers := s.papers.map (fun q =>
            if q.id == pid then
              { q with latest_version := version,
                       oss_key := storage_key s.clock filename,
                       updated_at := s.clock }
            else q),
          paper_versions := s.paper_versions ++
            [⟨s.next_version_id, pid, version, contents.length, s.clock,
              some s.clock, "ok", some ((parse_current_user cu).sub.getD 0),
              some ((parse_current_user cu).username.getD ""),
              some (String.intercalate "," ((parse_current_user cu).roles.getD []))⟩],
          blobs := s.blobs ++ [(storage_key s.clock filename, contents)],
          next_paper_id := s.next_paper_id,
          next_version_id := s.next_version_id + 1,
          clock := s.clock + 1,
          dbFail := false }) := by
  simp [update_paper, hext, hpos, hfind, hown.symm, hdb, hdup, Nat.not_lt.mpr hsize]

/-- `update_paper` under an injected database failure after the blob write:
rollback, 500, and the new blob stays. -/
theorem update_paper_dbfail (pid : Nat) (cu : CurrentUserInput) (filename : String)
    (contents : List Nat) (version : String) (s : St) (p : PaperRow)
    (hext : py_endswith (py_lower filename) ".docx" = true)
    (hpos : contents.length ≠ 0)
    (hsize : contents.length ≤ 100 * 1024 * 1024)
    (hfind : s.papers.find? (fun q => q.id == pid) = some p)
    (hown : some p.owner_id = (parse_current_user cu).sub)
    (hdb : s.dbFail = true) :
    update_paper pid cu filename contents version s =
      (Except.error ⟨500, "数据库操作失败"⟩,
        { s with blobs := s.blobs ++ [(storage_key s.clock filename, contents)],
                 clock := s.clock + 1 }) := by
  simp [update_paper, hext, hpos, hfind, hown.symm, hdb, Nat.not_lt.mpr hsize]

/-- `update_paper` on a version tag that already has a row: the INSERT
violates the (paper_id, version) uniqueness constraint, the handler maps the
resulting MySQL error to a 500 response (not a 409), the transaction is
rolled back and the new blob stays. -/
theorem update_paper_duplicate (pid : Nat) (cu : CurrentUserInput)
    (filename : String) (contents : List Nat) (version : String) (s : St)
    (p : PaperRow)
    (hext : py_endswith (py_lower filename) ".docx" = true)
    (hpos : contents.length ≠ 0)
    (hsize : contents.length ≤ 100 * 1024 * 1024)
    (hfind : s.papers.find? (fun q => q.id == pid) = some p)
    (hown : some p.owner_id = (parse_current_user cu).sub)
    (hdb : s.dbFail = false)
    (hdup : has_version s.paper_versions pid version = true) :
    update_paper pid cu filename contents version s =
      (Except.error ⟨500, "数据库操作失败"⟩,
        { s with blobs := s.blobs ++ [(storage_key s.clock filename, contents)],
                 clock := s.clock + 1 }) := by
  simp [update_paper, hext, hpos, hfind, hown.symm, hdb, hdup, Nat.not_lt.mpr hsize]

/-- `update_paper` by a caller whose sub differs from the paper's owner (or
whose dict has no sub at all): 403 before any side effect. -/
theorem update_paper_forbidden (pid : Nat) (cu : CurrentUserInput)
    (filename : String) (contents : List Nat) (version : String) (s : St)
    (p : PaperRow)
    (hext : py_endswith (py_lower filename) ".docx" = true)
    (hpos : contents.length ≠ 0)
    (hsize : contents.length ≤ 100 * 1024 * 1024)
    (hfind : s.papers.find? (fun q => q.id == pid) = some p)
    (hown : some p.owner_id ≠ (parse_current_user cu).sub) :
    update_paper pid cu filename contents version s =
      (Except.error ⟨403, "无权限更新该论文"⟩, s) := by
  simp [update_paper, hext, hpos, hfind, hown, Nat.not_lt.mpr hsize]

/-- `delete_paper` on a paper whose owner is not the fixed identity 1: 403,
whatever the actual requester is, and the state is untouched. -/
theorem delete_paper_forbidden (caller : UserDict) (pid : Nat) (s : St)
    (p : PaperRow)
    (hfind : s.papers.find? (fun q => q.id == pid) = some p)
    (hown : p.owner_id ≠ 1) :
    delete_paper caller pid s = (Except.error ⟨403, "无权限删除该论文"⟩, s) := by
  simp [delete_paper, hfind, hown]

/-- `delete_paper` on a paper owned by id 1 succeeds for any requester and
removes the `papers` row. -/
theorem delete_paper_ok (caller : UserDict) (pid : Nat) (s : St) (p : PaperRow)
    (hfind : s.papers.find? (fun q => q.id == pid) = some p)
    (hown : p.owner_id = 1) (hdb : s.dbFail = false) :
    delete_paper caller pid s =
      (Except.ok pid,
        { s with papers := s.papers.filter (fun q => ¬ (q.id == pid)),
                 clock := s.clock + 1 }) := by
  simp [delete_paper, hfind, hown, hdb]

/-- `delete_paper` never reads the requester: any two callers get the same
response and successor state. -/
theorem delete_paper_ignores_caller (c1 c2 : UserDict) (pid : Nat) (s : St) :
    delete_paper c1 pid s = delete_paper c2 pid s := rfl

/-- `list_versions` on a paper whose owner is not the fixed identity 1: 403,
whatever the actual requester is. -/
theorem list_versions_forbidden (caller : UserDict) (pid : Nat) (s : St)
    (p : PaperRow)
    (hfind : s.papers.find? (fun q => q.id == pid) = some p)
    (hown : p.owner_id ≠ 1) :
    list_versions caller pid s = (Except.error ⟨403, "无权限查看该论文版本"⟩, s) := by
  simp [list_versions, hfind, hown]

/-- `list_versions` on a paper owned by id 1 returns the paper's rows sorted
by descending timestamp, for any requester, without touching the state. -/
theorem list_versions_ok (caller : UserDict) (pid : Nat) (s : St) (p : PaperRow)
    (hfind : s.papers.find? (fun q => q.id == pid) = some p)
    (hown : p.owner_id = 1) :
    list_versions caller pid s =
      (Except.ok ((sort_desc (s.paper_versions.filter
          (fun r => r.paper_id == pid))).map
            (fun r => ⟨r.version, r.size, r.created_at, r.status⟩)), s) := by
  simp [list_versions, hfind, hown]

/-- `list_versions` never reads the requester. -/
theorem list_versions_ignores_caller (c1 c2 : UserDict) (pid : Nat) (s : St) :
    list_versions c1 pid s = list_versions c2 pid s := rfl

/-- `create_paper_status` when the (paper_id, version) pair already has a row:
409 and no mutation. -/
theorem create_paper_status_conflict (pid : Nat) (version : String)
    (payload : PaperStatusCreate) (s : St)
    (hpaper : s.papers.any (fun p => p.id == pid) = true)
    (hdup : has_version s.paper_versions pid version = true) :
    create_paper_status pid version payload s =
      (Except.error ⟨409, "该版本状态已存在，可使用更新接口"⟩, s) := by
  simp [create_paper_status, hpaper, hdup]

/-- A successful `create_paper_status`: the inserted row's size defaults to 0
when the payload omits it. -/
theorem create_paper_status_ok (pid : Nat) (version : String)
    (payload : PaperStatusCreate) (s : St)
    (hpaper : s.papers.any (fun p => p.id == pid) = true)
    (hdup : has_version s.paper_versions pid version = false)
    (hdb : s.dbFail = false) :
    create_paper_status pid version payload s =
      (Except.ok ⟨pid, version, payload.status, payload.size.getD 0, s.clock⟩,
        { s with
            paper_versions := s.paper_versions ++
              [⟨s.next_version_id, pid, version, payload.size.getD 0, s.clock,
                none, payload.status, none, none, none⟩],
            next_version_id := s.next_version_id + 1,
            clock := s.clock + 1 }) := by
  simp [create_paper_status, hpaper, hdup, hdb]

/-- `update_paper_status` on a pair with no row: 404 and no mutation. -/
theorem update_paper_status_notfound (pid : Nat) (version : String)
    (payload : PaperStatusUpdate) (s : St)
    (hfind : s.paper_versions.find?
        (fun r => r.paper_id == pid && r.version == version) = none) :
    update_paper_status pid version payload s =
      (Except.error ⟨404, "该版本不存在"⟩, s) := by
  simp [update_paper_status, hfind]

/-- A successful `update_paper_status`: status is overwritten, size keeps the
prior stored value when the payload omits it. -/
theorem update_paper_status_ok (pid : Nat) (version : String)
    (payload : PaperStatusUpdate) (s : St) (row : VersionRow)
    (hfind : s.paper_versions.find?
        (fun r => r.paper_id == pid && r.version == version) = some row)
    (hdb : s.dbFail = false) :
    update_paper_status pid version payload s =
      (Except.ok ⟨pid, version, payload.status, payload.size.getD row.size, s.clock⟩,
        { s with
            paper_versions := s.paper_versions.map (fun r =>
              if r.paper_id == pid && r.version == version then
                { r with
                    status := payload.status, size := payload.size.getD row.size,
                    updated_at := some s.clock }
              else r),
            clock := s.clock + 1 }) := by
  simp [update_paper_status, hfind, hdb]

/-- `upload_paper` when the initial version row would collide (only possible
when the paper id counter points at an id that already has a "v1.0" row): the
constraint violation is mapped to 500 and rolled back, the blob stays. -/
theorem upload_paper_duplicate (cu : CurrentUserInput) (filename : String)
    (contents : List Nat) (s : St)
    (hext : py_endswith (py_lower filename) ".docx" = true)
    (hsize : contents.length ≤ 100 * 1024 * 1024)
    (hdb : s.dbFail = false)
    (hdup : has_version s.paper_versions s.next_paper_id "v1.0" = true) :
    upload_paper cu filename contents s =
      (Except.error ⟨500, "数据库操作失败"⟩,
        { s with blobs := s.blobs ++ [(storage_key s.clock filename, contents)],
                 clock := s.clock + 1 }) := by
  simp [upload_paper, hext, hdb, hdup, Nat.not_lt.mpr hsize]

/-- `update_paper` on an absent paper id: 404 before any side effect. -/
theorem update_paper_notfound (pid : Nat) (cu : CurrentUserInput)
    (filename : String) (contents : List Nat) (version : String) (s : St)
    (hext : py_endswith (py_lower filename) ".docx" = true)
    (hpos : contents.length ≠ 0)
    (hsize : contents.length ≤ 100 * 1024 * 1024)
    (hfind : s.papers.find? (fun q => q.id == pid) = none) :
    update_paper pid cu filename contents version s =
      (Except.error ⟨404, "论文不存在"⟩, s) := by
  simp [update_paper, hext, hpos, hfind, Nat.not_lt.mpr hsize]

/-! ### Concrete states used by counterexamples and witnesses -/

/-- Empty initial state: both tables empty, auto-increment counters at 1 (the
first MySQL `lastrowid`), clock at 0, healthy relational store. -/
def st0 : St := ⟨[], [], [], 1, 1, 0, false⟩

/-- `st0` with the relational store failing. -/
def st_dbfail : St := ⟨[], [], [], 1, 1, 0, true⟩

/-- One paper (id 1, owner 5) with its "v1.0" row of size 3. -/
def st_owner5 : St :=
  ⟨[⟨1, 5, "v1.0", "k0", 0, 0⟩],
   [⟨1, 1, "v1.0", 3, 0, none, "ok", some 5, some "", some ""⟩],
   [("k0", [1, 2, 3])], 2, 2, 1, false⟩

/-- One paper (id 1, owner 1) with its "v1.0" row of size 3. -/
def st_owner1 : St :=
  ⟨[⟨1, 1, "v1.0", "k0", 0, 0⟩],
   [⟨1, 1, "v1.0", 3, 0, none, "ok", some 1, some "", some ""⟩],
   [("k0", [1, 2, 3])], 2, 2, 1, false⟩

/-! ### Claims -/

/-- C1 counterexample: `upload_paper` does not reject empty content.  An empty
upload with a valid `.docx` filename is accepted (HTTP 200 with a Paper body),
a paper row is created and the empty blob is stored, contradicting the claim
that zero-length content is rejected with a 400 before any side effect. -/
theorem upload_empty_not_rejected :
    (upload_paper CurrentUserInput.absent "a.docx" [] st0).1 =
      Except.ok ⟨1, 0, "v1.0", "0_a.docx"⟩ ∧
    (upload_paper CurrentUserInput.absent "a.docx" [] st0).2.papers =
      [⟨1, 0, "v1.0", "0_a.docx", 0, 0⟩] ∧
    (upload_paper CurrentUserInput.absent "a.docx" [] st0).2.blobs =
      [("0_a.docx", [])] := by
  decide

/-- C1 (amended): `update_paper` rejects zero-length content with a 400 before
any side effect; both handlers reject content strictly larger than 100 MiB
with a 400 before any side effect; content of exactly 100 MiB is never
rejected by the size checks of either handler; `upload_paper` performs no
empty-content check at all — zero-length content passes its validation and,
with a healthy database, produces a paper. -/
theorem size_validation_amended (filename : String) (contents : List Nat)
    (s : St) (hext : py_endswith (py_lower filename) ".docx" = true) :
    (contents.length = 0 → ∀ pid cu ver,
      update_paper pid cu filename contents ver s =
        (Except.error ⟨400, "文件为空"⟩, s)) ∧
    (100 * 1024 * 1024 < contents.length →
      (∀ cu, upload_paper cu filename contents s =
        (Except.error ⟨400, "文件大小超过 100MB"⟩, s)) ∧
      (∀ pid cu ver, update_paper pid cu filename contents ver s =
        (Except.error ⟨400, "文件大小超过 100MB"⟩, s))) ∧
    (contents.length = 100 * 1024 * 1024 →
      (∀ cu, (upload_paper cu filename contents s).1 ≠
          Except.error ⟨400, "文件大小超过 100MB"⟩) ∧
      (∀ pid cu ver,
        (update_paper pid cu filename contents ver s).1 ≠
          Except.error ⟨400, "文件大小超过 100MB"⟩ ∧
        (update_paper pid cu filename contents ver s).1 ≠
          Except.error ⟨400, "文件为空"⟩)) ∧
    (contents.length = 0 → s.dbFail = false →
      has_version s.paper_versions s.next_paper_id "v1.0" = false →
      ∀ cu, (upload_paper cu filename contents s).1 =
        Except.ok ⟨s.next_paper_id, (parse_current_user cu).sub.getD 0, "v1.0",
          storage_key s.clock filename⟩) := by
  refine ⟨fun h0 pid cu ver => ?_, fun hbig => ⟨fun cu => ?_, fun pid cu ver => ?_⟩,
    fun hex => ⟨fun cu => ?_, fun pid cu ver => ⟨?_, ?_⟩⟩,
    fun h0 hdb hdup cu => ?_⟩
  · simp [update_paper, hext, h0]
  · simp [upload_paper, hext, hbig]
  · have h0 : contents.length ≠ 0 := by omega
    simp [update_paper, hext, h0, hbig]
  · have hsize : contents.length ≤ 100 * 1024 * 1024 := le_of_eq hex
    by_cases hdb : s.dbFail
    · rw [upload_paper_dbfail cu filename contents s hext hsize hdb]; simp
    · by_cases hdup : has_version s.paper_versions s.next_paper_id "v1.0"
      · rw [upload_paper_duplicate cu filename contents s hext hsize
          (Bool.not_eq_true _ ▸ hdb) hdup]
        simp
      · rw [upload_paper_ok cu filename contents s hext hsize
          (Bool.not_eq_true _ ▸ hdb) (Bool.not_eq_true _ ▸ hdup)]
        simp
  · have hsize : contents.length ≤ 100 * 1024 * 1024 := le_of_eq hex
    have hpos : contents.length ≠ 0 := by omega
    rcases hfind : s.papers.find? (fun q => q.id == pid) with _ | p
    · rw [update_paper_notfound pid cu filename contents ver s hext hpos hsize hfind]
      simp
    · by_cases hown : some p.owner_id = (parse_current_user cu).sub
      · by_cases hdb : s.dbFail
        · rw [update_paper_dbfail pid cu filename contents ver s p hext hpos hsize
            hfind hown hdb]
          simp
        · by_cases hdup : has_version s.paper_versions pid ver
          · rw [update_paper_duplicate pid cu filename contents ver s p hext hpos
              hsize hfind hown (Bool.not_eq_true _ ▸ hdb) hdup]
            simp
          · rw [update_paper_ok pid cu filename contents ver s p hext hpos hsize
              hfind hown (Bool.not_eq_true _ ▸ hdb) (Bool.not_eq_true _ ▸ hdup)]
            simp
      · rw [update_paper_forbidden pid cu filename contents ver s p hext hpos hsize
          hfind hown]
        simp
  · have hsize : contents.length ≤ 100 * 1024 * 1024 := by omega
    have hpos : contents.length ≠ 0 := by omega
    rcases hfind : s.papers.find? (fun q => q.id == pid) with _ | p
    · rw [update_paper_notfound pid cu filename contents ver s hext hpos hsize hfind]
      simp
    · by_cases hown : some p.owner_id = (parse_current_user cu).sub
      · by_cases hdb : s.dbFail
        · rw [update_paper_dbfail pid cu filename contents ver s p hext hpos hsize
            hfind hown hdb]
          simp
        · by_cases hdup : has_version s.paper_versions pid ver
          · rw [update_paper_duplicate pid cu filename contents ver s p hext hpos
              hsize hfind hown (Bool.not_eq_true _ ▸ hdb) hdup]
            simp
          · rw [update_paper_ok pid cu filename contents ver s p hext hpos hsize
              hfind hown (Bool.not_eq_true _ ▸ hdb) (Bool.not_eq_true _ ▸ hdup)]
            simp
      · rw [update_paper_forbidden pid cu filename contents ver s p hext hpos hsize
          hfind hown]
        simp
  · rw [upload_paper_ok cu filename contents s hext (by omega) hdb hdup]

/-- C1 witness: the amended statement applied at a concrete empty upload in
the empty state. -/
theorem size_validation_amended_witness :
    update_paper 1 CurrentUserInput.absent "a.docx" [] "v2.0" st0 =
      (Except.error ⟨400, "文件为空"⟩, st0) :=
  (size_validation_amended "a.docx" [] st0 (by decide)).1 rfl 1
    CurrentUserInput.absent "v2.0"

/-- C2 counterexample: when the database insert fails after the blob write,
the handler answers 500 but performs no compensating blob deletion — the
just-written blob is still in the store afterwards, contradicting the claim
that it is deleted. -/
theorem db_failure_orphan_blob :
    (upload_paper CurrentUserInput.absent "a.docx" [1] st_dbfail).1 =
      Except.error ⟨500, "数据库操作失败"⟩ ∧
    (upload_paper CurrentUserInput.absent "a.docx" [1] st_dbfail).2.blobs =
      [("0_a.docx", [1])] := by
  decide

/-- C2 (amended): on a database failure after the blob write, both handlers
surface the original 500 storage error and roll the relational transaction
back (both tables are exactly as before), but no compensating deletion of the
just-written blob happens: the blob remains in the store. -/
theorem db_failure_no_compensation (filename : String) (contents : List Nat)
    (hext : py_endswith (py_lower filename) ".docx" = true)
    (hpos : contents.length ≠ 0)
    (hsize : contents.length ≤ 100 * 1024 * 1024) :
    ∀ (s : St) (cu : CurrentUserInput), s.dbFail = true →
      (upload_paper cu filename contents s =
        (Except.error ⟨500, "数据库操作失败"⟩,
          { s with blobs := s.blobs ++ [(storage_key s.clock filename, contents)],
                   clock := s.clock + 1 })) ∧
      (∀ pid p version, s.papers.find? (fun q => q.id == pid) = some p →
        some p.owner_id = (parse_current_user cu).sub →
        update_paper pid cu filename contents version s =
          (Except.error ⟨500, "数据库操作失败"⟩,
            { s with blobs := s.blobs ++ [(storage_key s.clock filename, contents)],
                     clock := s.clock + 1 })) := by
  intro s cu hdb
  exact ⟨upload_paper_dbfail cu filename contents s hext hsize hdb,
    fun pid p version hfind hown =>
      update_paper_dbfail pid cu filename contents version s p hext hpos hsize
        hfind hown hdb⟩

/-- C2 witness: the amended statement applied to a one-byte upload against a
failing database in the empty state. -/
theorem db_failure_no_compensation_witness :
    upload_paper CurrentUserInput.absent "a.docx" [1] st_dbfail =
      (Except.error ⟨500, "数据库操作失败"⟩,
        { st_dbfail with blobs := [("0_a.docx", [1])], clock := 1 }) := by
  have h := (db_failure_no_compensation "a.docx" [1] (by decide) (by decide)
    (by decide) st_dbfail CurrentUserInput.absent rfl).1
  simpa [st_dbfail, storage_key, safe_name] using h

/-- C3 counterexample: `update_paper` by the owner with an already-existing
version tag answers 500 with a generic database-failure detail, not a 409
Conflict, contradicting the claim that the duplicate is surfaced as a
409-equivalent.  (The rolled-back insert does leave the rows unchanged.) -/
theorem duplicate_version_not_conflict :
    (update_paper 1 (CurrentUserInput.obj ⟨some 5, none, none⟩)
        "b.docx" [7] "v1.0" st_owner5).1 =
      Except.error ⟨500, "数据库操作失败"⟩ ∧
    (update_paper 1 (CurrentUserInput.obj ⟨some 5, none, none⟩)
        "b.docx" [7] "v1.0" st_owner5).2.paper_versions =
      st_owner5.paper_versions := by
  decide

/-- C3 (amended): `update_paper` with a version tag whose (paper_id, version)
row already exists fails with a 500 database error (the handler maps the
constraint violation, like every MySQL error, to 500 rather than 409); the
transaction is rolled back, so no new PaperVersion row is added (only the
orphaned blob is left behind). -/
theorem duplicate_version_maps_to_500 (pid : Nat) (cu : CurrentUserInput)
    (filename : String) (contents : List Nat) (version : String) (s : St)
    (p : PaperRow)
    (hext : py_endswith (py_lower filename) ".docx" = true)
    (hpos : contents.length ≠ 0)
    (hsize : contents.length ≤ 100 * 1024 * 1024)
    (hfind : s.papers.find? (fun q => q.id == pid) = some p)
    (hown : some p.owner_id = (parse_current_user cu).sub)
    (hdb : s.dbFail = false)
    (hdup : has_version s.paper_versions pid version = true) :
    (update_paper pid cu filename contents version s).1 =
      Except.error ⟨500, "数据库操作失败"⟩ ∧
    (update_paper pid cu filename contents version s).2.paper_versions =
      s.paper_versions ∧
    (update_paper pid cu filename contents version s).2.papers = s.papers := by
  rw [update_paper_duplicate pid cu filename contents version s p hext hpos hsize
    hfind hown hdb hdup]
  exact ⟨rfl, rfl, rfl⟩

/-- C3 witness: the amended statement applied to the concrete duplicate
update of C3's counterexample. -/
theorem duplicate_version_maps_to_500_witness :
    (update_paper 1 (CurrentUserInput.obj ⟨some 5, none, none⟩)
        "b.docx" [7] "v1.0" st_owner5).1 =
      Except.error ⟨500, "数据库操作失败"⟩ :=
  (duplicate_version_maps_to_500 1 (CurrentUserInput.obj ⟨some 5, none, none⟩)
    "b.docx" [7] "v1.0" st_owner5 ⟨1, 5, "v1.0", "k0", 0, 0⟩
    (by decide) (by decide) (by decide) (by decide) (by decide) rfl
    (by decide)).1

/-- C4 counterexample: `delete_paper` checks the owner against the fixed
identity 1, not against the caller.  A caller with sub 2 deletes a paper
owned by 1: the operation succeeds and mutates the papers table, although
the caller differs from the owner — contradicting the claim that such a call
always fails with 403 and mutates nothing. -/
theorem delete_by_non_owner_succeeds :
    (delete_paper ⟨some 2, none, none⟩ 1 st_owner1).1 = Except.ok 1 ∧
    (delete_paper ⟨some 2, none, none⟩ 1 st_owner1).2.papers = [] := by
  decide

/-- C4 (amended): `update_paper` by a caller whose sub differs from the
paper's owner fails with 403 and mutates nothing.  `delete_paper` ignores the
caller and compares the owner against the fixed identity 1: it fails with 403
and mutates nothing exactly when the owner is not 1, and when the owner is 1
it succeeds for every caller, including callers that differ from the owner. -/
theorem ownership_checks_amended (s : St) (pid : Nat) (p : PaperRow)
    (hfind : s.papers.find? (fun q => q.id == pid) = some p) :
    (∀ cu filename contents version,
      py_endswith (py_lower filename) ".docx" = true → contents.length ≠ 0 →
      contents.length ≤ 100 * 1024 * 1024 →
      some p.owner_id ≠ (parse_current_user cu).sub →
      update_paper pid cu filename contents version s =
        (Except.error ⟨403, "无权限更新该论文"⟩, s)) ∧
    (p.owner_id ≠ 1 → ∀ caller,
      delete_paper caller pid s = (Except.error ⟨403, "无权限删除该论文"⟩, s)) ∧
    (p.owner_id = 1 → s.dbFail = false → ∀ caller,
      (delete_paper caller pid s).1 = Except.ok pid) := by
  refine ⟨fun cu filename contents version hext hpos hsize hown =>
      update_paper_forbidden pid cu filename contents version s p hext hpos hsize
        hfind hown,
    fun hown caller => delete_paper_forbidden caller pid s p hfind hown,
    fun hown hdb caller => ?_⟩
  rw [delete_paper_ok caller pid s p hfind hown hdb]

/-- C4 witness: the amended statement applied to the paper owned by 5 with a
caller whose sub is 2. -/
theorem ownership_checks_amended_witness :
    update_paper 1 (CurrentUserInput.obj ⟨some 2, none, none⟩)
        "b.docx" [7] "v2.0" st_owner5 =
      (Except.error ⟨403, "无权限更新该论文"⟩, st_owner5) :=
  (ownership_checks_amended st_owner5 1 ⟨1, 5, "v1.0", "k0", 0, 0⟩
    (by decide)).1 (CurrentUserInput.obj ⟨some 2, none, none⟩) "b.docx" [7] "v2.0"
    (by decide) (by decide) (by decide) (by decide)

/-- C5: `create_paper_status` on an existing (paper_id, version) pair answers
409 and leaves the state (hence the existing row) untouched; the successful
create with an omitted size stores and returns size 0.  `update_paper_status`
on a missing pair answers 404; the successful update with an omitted size
returns the prior stored size and leaves the row's size column unchanged. -/
theorem status_subresource_contract (s : St) (pid : Nat) (version : String) :
    (∀ payload, s.papers.any (fun p => p.id == pid) = true →
      has_version s.paper_versions pid version = true →
      create_paper_status pid version payload s =
        (Except.error ⟨409, "该版本状态已存在，可使用更新接口"⟩, s)) ∧
    (∀ payload, s.paper_versions.find?
        (fun r => r.paper_id == pid && r.version == version) = none →
      update_paper_status pid version payload s =
        (Except.error ⟨404, "该版本不存在"⟩, s)) ∧
    (∀ stat, s.papers.any (fun p => p.id == pid) = true →
      has_version s.paper_versions pid version = false → s.dbFail = false →
      (create_paper_status pid version ⟨stat, none⟩ s).1 =
        Except.ok ⟨pid, version, stat, 0, s.clock⟩ ∧
      (create_paper_status pid version ⟨stat, none⟩ s).2.paper_versions =
        s.paper_versions ++
          [⟨s.next_version_id, pid, version, 0, s.clock, none, stat,
            none, none, none⟩]) ∧
    (∀ stat row, s.paper_versions.find?
        (fun r => r.paper_id == pid && r.version == version) = some row →
      s.dbFail = false →
      (update_paper_status pid version ⟨stat, none⟩ s).1 =
        Except.ok ⟨pid, version, stat, row.size, s.clock⟩ ∧
      (update_paper_status pid version ⟨stat, none⟩ s).2.paper_versions.find?
          (fun r => r.paper_id == pid && r.version == version) =
        some { row with status := stat, updated_at := some s.clock }) := by
  refine ⟨fun payload hpaper hdup =>
      create_paper_status_conflict pid version payload s hpaper hdup,
    fun payload hfind => update_paper_status_notfound pid version payload s hfind,
    fun stat hpaper hdup hdb => ?_, fun stat row hfind hdb => ?_⟩
  · rw [create_paper_status_ok pid version ⟨stat, none⟩ s hpaper hdup hdb]
    exact ⟨rfl, rfl⟩
  · rw [update_paper_status_ok pid version ⟨stat, none⟩ s row hfind hdb]
    refine ⟨rfl, ?_⟩
    dsimp only
    rw [find?_after_status_update _ pid version _ _ _ _ hfind]
    rfl

/-- C5 witness: the contract applied at the one-paper state, creating a
status for the fresh tag "v2.0" with an omitted size. -/
theorem status_subresource_contract_witness :
    (create_paper_status 1 "v2.0" ⟨"pending", none⟩ st_owner5).1 =
      Except.ok ⟨1, "v2.0", "pending", 0, 1⟩ :=
  ((status_subresource_contract st_owner5 1 "v2.0").2.2.1 "pending"
    (by decide) (by decide) rfl).1

/-- C6: `update_paper_status` is idempotent on the (status, size) pair.  Both
the first and the repeated call with the same payload return the same status
and size, and the stored row carries exactly that pair after either call. -/
theorem update_status_idempotent (s : St) (pid : Nat) (version : String)
    (payload : PaperStatusUpdate) (row : VersionRow)
    (hfind : s.paper_versions.find?
        (fun r => r.paper_id == pid && r.version == version) = some row)
    (hdb : s.dbFail = false) :
    ((update_paper_status pid version payload s).1.map
        (fun o => (o.status, o.size)) =
      Except.ok (payload.status, payload.size.getD row.size)) ∧
    ((update_paper_status pid version payload
        (update_paper_status pid version payload s).2).1.map
          (fun o => (o.status, o.size)) =
      Except.ok (payload.status, payload.size.getD row.size)) ∧
    (((update_paper_status pid version payload s).2.paper_versions.find?
        (fun r => r.paper_id == pid && r.version == version)).map
          (fun r => (r.status, r.size)) =
      some (payload.status, payload.size.getD row.size)) ∧
    (((update_paper_status pid version payload
        (update_paper_status pid version payload s).2).2.paper_versions.find?
        (fun r => r.paper_id == pid && r.version == version)).map
          (fun r => (r.status, r.size)) =
      some (payload.status, payload.size.getD row.size)) := by
  have hgetD : payload.size.getD (payload.size.getD row.size) =
      payload.size.getD row.size := by
    cases payload.size <;> rfl
  have h1 := update_paper_status_ok pid version payload s row hfind hdb
  have hrow1 : (update_paper_status pid version payload s).2.paper_versions.find?
      (fun r => r.paper_id == pid && r.version == version) =
      some { row with status := payload.status, size := payload.size.getD row.size,
                      updated_at := some s.clock } := by
    rw [h1]
    dsimp only
    rw [find?_after_status_update _ pid version _ _ _ _ hfind]
  have hdb1 : (update_paper_status pid version payload s).2.dbFail = false := by
    rw [h1]; exact hdb
  have h2 := update_paper_status_ok pid version payload
    (update_paper_status pid version payload s).2
    { row with status := payload.status, size := payload.size.getD row.size,
               updated_at := some s.clock } hrow1 hdb1
  refine ⟨by rw [h1]; rfl, ?_, by rw [hrow1]; rfl, ?_⟩
  · rw [h2]
    dsimp only [Except.map]
    rw [hgetD]
  · rw [h2]
    dsimp only
    rw [find?_after_status_update _ pid version _ _ _ _ hrow1]
    dsimp only [Option.map]
    rw [hgetD]

/-- C6 witness: the idempotence statement applied at the one-paper state to
the existing (1, "v1.0") row with payload status "failed" and omitted size. -/
theorem update_status_idempotent_witness :
    ((update_paper_status 1 "v1.0" ⟨"failed", none⟩ st_owner5).1.map
        (fun o => (o.status, o.size)) = Except.ok ("failed", 3)) ∧
    ((update_paper_status 1 "v1.0" ⟨"failed", none⟩
        (update_paper_status 1 "v1.0" ⟨"failed", none⟩ st_owner5).2).1.map
          (fun o => (o.status, o.size)) = Except.ok ("failed", 3)) := by
  have h := update_status_idempotent st_owner5 1 "v1.0" ⟨"failed", none⟩
    ⟨1, 1, "v1.0", 3, 0, none, "ok", some 5, some "", some ""⟩ (by decide) rfl
  exact ⟨h.1, h.2.1⟩

/-- C7: a successful `upload_paper` returns a Paper whose latest_version is
the initial tag "v1.0", and afterwards exactly one PaperVersion row exists
for the new paper id — the singleton filter below — carrying status "ok" and
size equal to the byte length of the uploaded content. -/
theorem upload_creates_initial_version (cu : CurrentUserInput)
    (filename : String) (contents : List Nat) (s : St)
    (hext : py_endswith (py_lower filename) ".docx" = true)
    (hsize : contents.length ≤ 100 * 1024 * 1024)
    (hdb : s.dbFail = false)
    (hfresh : ∀ r ∈ s.paper_versions, r.paper_id ≠ s.next_paper_id) :
    (upload_paper cu filename contents s).1 =
      Except.ok ⟨s.next_paper_id, (parse_current_user cu).sub.getD 0, "v1.0",
        storage_key s.clock filename⟩ ∧
    (upload_paper cu filename contents s).2.paper_versions.filter
        (fun r => r.paper_id == s.next_paper_id) =
      [⟨s.next_version_id, s.next_paper_id, "v1.0", contents.length, s.clock,
        none, "ok", some ((parse_current_user cu).sub.getD 0),
        some ((parse_current_user cu).username.getD ""),
        some (String.intercalate "," ((parse_current_user cu).roles.getD []))⟩] := by
  have hdup : has_version s.paper_versions s.next_paper_id "v1.0" = false := by
    simp only [has_version, List.any_eq_false, Bool.and_eq_true, beq_iff_eq, not_and]
    exact fun r hr hpid => absurd hpid (hfresh r hr)
  rw [upload_paper_ok cu filename contents s hext hsize hdb hdup]
  refine ⟨rfl, ?_⟩
  dsimp only
  rw [List.filter_append]
  have hnil : s.paper_versions.filter (fun r => r.paper_id == s.next_paper_id) = [] :=
    List.filter_eq_nil_iff.mpr (fun r hr => by
      simp only [beq_iff_eq]
      exact hfresh r hr)
  rw [hnil]
  simp

/-- C7 witness: the statement applied to a three-byte upload by sub 42 in the
empty state. -/
theorem upload_creates_initial_version_witness :
    (upload_paper (CurrentUserInput.obj ⟨some 42, some "w", some ["student"]⟩)
        "a.docx" [1, 2, 3] st0).1 =
      Except.ok ⟨1, 42, "v1.0", "0_a.docx"⟩ := by
  have h := (upload_creates_initial_version
    (CurrentUserInput.obj ⟨some 42, some "w", some ["student"]⟩)
    "a.docx" [1, 2, 3] st0 (by decide) (by decide) rfl
    (by intro r hr; simp [st0] at hr)).1
  simpa [st0, storage_key, safe_name] using h

/-- C9: `delete_paper` and `list_versions` compare the paper's owner against
the fixed identity sub 1, never against the requester: on a paper whose owner
is not 1 both always answer 403 without mutation, for every caller, and any
two invocations differing only in the caller coincide exactly. -/
theorem fixed_identity_operations (s : St) (pid : Nat) (p : PaperRow)
    (hfind : s.papers.find? (fun q => q.id == pid) = some p)
    (hown : p.owner_id ≠ 1) :
    (∀ caller, delete_paper caller pid s =
      (Except.error ⟨403, "无权限删除该论文"⟩, s)) ∧
    (∀ caller, list_versions caller pid s =
      (Except.error ⟨403, "无权限查看该论文版本"⟩, s)) ∧
    (∀ c1 c2 pid2 s2, delete_paper c1 pid2 s2 = delete_paper c2 pid2 s2) ∧
    (∀ c1 c2 pid2 s2, list_versions c1 pid2 s2 = list_versions c2 pid2 s2) :=
  ⟨fun caller => delete_paper_forbidden caller pid s p hfind hown,
   fun caller => list_versions_forbidden caller pid s p hfind hown,
   fun _ _ _ _ => rfl, fun _ _ _ _ => rfl⟩

/-- C9 witness: even the true owner (sub 5) is refused deletion of their own
paper, because the handler compares against the fixed sub 1. -/
theorem fixed_identity_operations_witness :
    delete_paper ⟨some 5, none, none⟩ 1 st_owner5 =
      (Except.error ⟨403, "无权限删除该论文"⟩, st_owner5) :=
  (fixed_identity_operations st_owner5 1 ⟨1, 5, "v1.0", "k0", 0, 0⟩ (by decide)
    (by decide)).1 ⟨some 5, none, none⟩

/-- C10: `_parse_current_user` is total and never raises — on every input that
is not a JSON object (absent, blank, malformed, non-object) it returns the
default identity with sub 0, empty username and empty roles; consequently an
upload with such a `current_user` passes parsing (no validation failure) and
creates a paper owned by id 0. -/
theorem parse_user_never_raises :
    (∀ inp : CurrentUserInput, (∀ d, inp ≠ CurrentUserInput.obj d) →
      parse_current_user inp = default_user) ∧
    default_user = ⟨some 0, some "", some []⟩ ∧
    (∀ (inp : CurrentUserInput) (filename : String) (contents : List Nat) (s : St),
      (∀ d, inp ≠ CurrentUserInput.obj d) →
      py_endswith (py_lower filename) ".docx" = true →
      contents.length ≤ 100 * 1024 * 1024 → s.dbFail = false →
      has_version s.paper_versions s.next_paper_id "v1.0" = false →
      (upload_paper inp filename contents s).1 =
        Except.ok ⟨s.next_paper_id, 0, "v1.0", storage_key s.clock filename⟩ ∧
      (⟨s.next_paper_id, 0, "v1.0", storage_key s.clock filename,
          s.clock, s.clock⟩ : PaperRow) ∈
        (upload_paper inp filename contents s).2.papers) := by
  have hdef : ∀ inp : CurrentUserInput, (∀ d, inp ≠ CurrentUserInput.obj d) →
      parse_current_user inp = default_user := by
    intro inp h
    cases inp
    case obj d => exact absurd rfl (h d)
    all_goals rfl
  refine ⟨hdef, rfl, ?_⟩
  intro inp filename contents s hno hext hsize hdb hdup
  rw [upload_paper_ok inp filename contents s hext hsize hdb hdup]
  rw [hdef inp hno]
  exact ⟨rfl, List.mem_append_right _ (List.mem_singleton.mpr rfl)⟩

/-- C10 witness: the statement applied to an upload with a malformed
`current_user` string in the empty state. -/
theorem parse_user_never_raises_witness :
    parse_current_user CurrentUserInput.notJson = default_user ∧
    (upload_paper CurrentUserInput.notJson "a.docx" [1] st0).1 =
      Except.ok ⟨1, 0, "v1.0", "0_a.docx"⟩ := by
  have h1 := parse_user_never_raises.1 CurrentUserInput.notJson (by intro d hd; cases hd)
  have h2 := (parse_user_never_raises.2.2 CurrentUserInput.notJson "a.docx" [1] st0
    (by intro d hd; cases hd) (by decide) (by decide) rfl (by decide)).1
  exact ⟨h1, by simpa [st0, storage_key, safe_name] using h2⟩

/-- The pointer-column UPDATE of `update_paper` over the papers list:
afterwards the lookup of the paper returns it with latest_version, oss_key
and updated_at overwritten. -/
theorem find?_after_pointer_update (l : List PaperRow) (pid : Nat)
    (v k : String) (t : Nat) (p : PaperRow)
    (hfind : l.find? (fun q => q.id == pid) = some p) :
    (l.map (fun q => if q.id == pid then
        { q with latest_version := v, oss_key := k, updated_at := t } else q)).find?
      (fun q => q.id == pid) =
      some { p with latest_version := v, oss_key := k, updated_at := t } := by
  rw [find?_map_ite_paper l pid
    (fun q => { q with latest_version := v, oss_key := k, updated_at := t })
    (fun _ => rfl), hfind]
  rfl

/-- C8: after a successful `update_paper` with a fresh version tag the
response carries the new tag and blob key, the paper's pointer columns are
moved to them, the version table has exactly one more row, and
`list_versions` returns the new version first followed by the previously
stored rows sorted by descending timestamp — a list that is one longer than
the paper's previous row set and sorted newest-first.  (The paper is owned by
the fixed identity 1 so that `list_versions` passes its ownership check, and
the caller's sub is 1 so that `update_paper` passes its own.) -/
theorem update_then_list_versions (pid : Nat) (cu : CurrentUserInput)
    (filename : String) (contents : List Nat) (version : String) (s : St)
    (p : PaperRow)
    (hext : py_endswith (py_lower filename) ".docx" = true)
    (hpos : contents.length ≠ 0)
    (hsize : contents.length ≤ 100 * 1024 * 1024)
    (hfind : s.papers.find? (fun q => q.id == pid) = some p)
    (hown : p.owner_id = 1)
    (hsub : (parse_current_user cu).sub = some 1)
    (hdb : s.dbFail = false)
    (hdup : has_version s.paper_versions pid version = false)
    (hclock : ∀ r ∈ s.paper_versions, r.created_at < s.clock) :
    (update_paper pid cu filename contents version s).1 =
      Except.ok ⟨pid, 1, version, storage_key s.clock filename⟩ ∧
    (update_paper pid cu filename contents version s).2.papers.find?
        (fun q => q.id == pid) =
      some { p with latest_version := version,
                    oss_key := storage_key s.clock filename,
                    updated_at := s.clock } ∧
    (update_paper pid cu filename contents version s).2.paper_versions.length =
      s.paper_versions.length + 1 ∧
    (∀ caller, (list_versions caller pid
        (update_paper pid cu filename contents version s).2).1 =
      Except.ok (⟨version, contents.length, s.clock, "ok"⟩ ::
        (sort_desc (s.paper_versions.filter (fun r => r.paper_id == pid))).map
          (fun r => ⟨r.version, r.size, r.created_at, r.status⟩))) ∧
    ((⟨version, contents.length, s.clock, "ok"⟩ ::
        (sort_desc (s.paper_versions.filter (fun r => r.paper_id == pid))).map
          (fun r => ⟨r.version, r.size, r.created_at, r.status⟩) :
        List VersionOut)).length =
      (s.paper_versions.filter (fun r => r.paper_id == pid)).length + 1 ∧
    List.Sorted (fun a b : VersionOut => b.created_at ≤ a.created_at)
      (⟨version, contents.length, s.clock, "ok"⟩ ::
        (sort_desc (s.paper_versions.filter (fun r => r.paper_id == pid))).map
          (fun r => ⟨r.version, r.size, r.created_at, r.status⟩)) := by
  have hown2 : some p.owner_id = (parse_current_user cu).sub := by
    rw [hown, hsub]
  have h1 := update_paper_ok pid cu filename contents version s p hext hpos hsize
    hfind hown2 hdb hdup
  have hfind2 : (update_paper pid cu filename contents version s).2.papers.find?
      (fun q => q.id == pid) =
      some { p with latest_version := version,
                    oss_key := storage_key s.clock filename,
                    updated_at := s.clock } := by
    rw [h1]
    dsimp only
    exact find?_after_pointer_update s.papers pid version
      (storage_key s.clock filename) s.clock p hfind
  have hfilter : (update_paper pid cu filename contents version
        s).2.paper_versions.filter (fun r => r.paper_id == pid) =
      s.paper_versions.filter (fun r => r.paper_id == pid) ++
        [⟨s.next_version_id, pid, version, contents.length, s.clock,
          some s.clock, "ok", some ((parse_current_user cu).sub.getD 0),
          some ((parse_current_user cu).username.getD ""),
          some (String.intercalate "," ((parse_current_user cu).roles.getD []))⟩] := by
    rw [h1]
    dsimp only
    rw [List.filter_append]
    simp
  have hmax : ∀ q ∈ s.paper_versions.filter (fun r => r.paper_id == pid),
      q.created_at < s.clock :=
    fun q hq => hclock q (List.mem_of_mem_filter hq)
  refine ⟨by rw [h1, hsub]; rfl, hfind2, by rw [h1]; simp, fun caller => ?_, ?_, ?_⟩
  · rw [list_versions_ok caller pid (update_paper pid cu filename contents version s).2
      { p with latest_version := version,
               oss_key := storage_key s.clock filename,
               updated_at := s.clock } hfind2 hown]
    dsimp only
    rw [hfilter, sort_desc_append_max _ _ hmax]
    rfl
  · simp [sort_desc, (List.perm_insertionSort created_desc _).length_eq]
  · refine List.sorted_cons.mpr ⟨?_, ?_⟩
    · intro b hb
      rcases List.mem_map.mp hb with ⟨q, hq, hqb⟩
      have hqmem : q ∈ s.paper_versions.filter (fun r => r.paper_id == pid) :=
        (List.perm_insertionSort created_desc _).subset hq
      have := hmax q hqmem
      rw [← hqb]
      exact Nat.le_of_lt this
    · exact List.Pairwise.map _ (fun a b hab => hab) (sort_desc_sorted _)

/-- C8 witness: the statement applied to a two-byte "v2.0" update of the
paper owned by 1, by a caller with sub 1. -/
theorem update_then_list_versions_witness :
    (update_paper 1 (CurrentUserInput.obj ⟨some 1, none, none⟩) "b.docx" [9, 9]
        "v2.0" st_owner1).1 =
      Except.ok ⟨1, 1, "v2.0", "1_b.docx"⟩ := by
  have h := (update_then_list_versions 1 (CurrentUserInput.obj ⟨some 1, none, none⟩)
    "b.docx" [9, 9] "v2.0" st_owner1 ⟨1, 1, "v1.0", "k0", 0, 0⟩
    (by decide) (by decide) (by decide) (by decide) rfl rfl rfl (by decide)
    (by decide)).1
  simpa [storage_key, safe_name] using h
